import Mathlib

/-!
# Verification of the diet-planner core

Shallow embedding of the meal-composition, health-metric and orchestration
logic of the diet-planner repository:

* `src/agents/health_agent.py`   — `HealthAgent` (BMI/BMR/TDEE, adjusted calories, macros)
* `src/agents/nutrition_agent.py` — `NutritionAgent` (diet filter, pairing rules, meal builder)
* `src/agents/llm_agent.py`      — `LLMAgent.explain_plan` (fallback narrative)
* `src/services/recommendation_engine.py` — `RecommendationEngine.generate_plan`

Python floats are modelled as exact rationals (all constants in the source,
0.25/0.85/6.25/…, are used only in comparisons and truncations that are robust
to this idealisation), Python `int()` as truncation toward zero, and pandas
DataFrames as lists of rows.  `DataFrame.sample(1)` (uniform random choice) is
modelled by an explicit choice index reduced modulo the candidate-list length,
so every theorem quantifies over all possible random draws.
-/

set_option maxRecDepth 40000
set_option linter.unusedVariables false

/-! ## Python string primitives (character-list level) -/

/-- `str.lower()` restricted to ASCII case mapping (the catalog text is ASCII). -/
def pyLower (s : String) : String := ⟨s.data.map Char.toLower⟩

/-- `str.strip()`: drop whitespace at both ends. -/
def pyStrip (s : String) : String :=
  ⟨((s.data.dropWhile Char.isWhitespace).reverse.dropWhile Char.isWhitespace).reverse⟩

/-- One character of `str.title()`: upper-case an alphabetic character that starts a
word (previous character not alphabetic), lower-case the rest, leave other characters. -/
def titleChars : Bool → List Char → List Char
  | _, [] => []
  | prev, c :: cs =>
      (if c.isAlpha && !prev then c.toUpper else c.toLower) :: titleChars c.isAlpha cs

/-- `str.title()` (ASCII case mapping). -/
def pyTitle (s : String) : String := ⟨titleChars false s.data⟩

/-- `str.replace(old, new)` for single-character patterns. -/
def pyReplaceChar (a b : Char) (s : String) : String :=
  ⟨s.data.map (fun c => if c = a then b else c)⟩

/-- Does `needle` occur at the start of `hay`? -/
def strStarts : List Char → List Char → Bool
  | [], _ => true
  | _ :: _, [] => false
  | a :: as, b :: bs => a == b && strStarts as bs

/-- Substring occurrence, `needle in hay` / `pandas Series.str.contains` for
patterns without regex metacharacters. -/
def strHas (needle : List Char) : List Char → Bool
  | [] => strStarts needle []
  | c :: cs => strStarts needle (c :: cs) || strHas needle cs

/-- `hay.contains(needle)` on strings. -/
def strContains (hay needle : String) : Bool := strHas needle.data hay.data

/-- Python `int()` on an exact rational: truncation toward zero. -/
def pyInt (q : Rat) : Int := if 0 ≤ q then ⌊q⌋ else ⌈q⌉

/-- Python `round` ties-to-even on an exact rational, to an integer. -/
def roundHalfEven (q : Rat) : Int :=
  if q - ⌊q⌋ < 1/2 then ⌊q⌋
  else if q - ⌊q⌋ > 1/2 then ⌊q⌋ + 1
  else if ⌊q⌋ % 2 = 0 then ⌊q⌋ else ⌊q⌋ + 1

/-- Python `round(q, digits)` on an exact rational. -/
def pyRound (q : Rat) (digits : Nat) : Rat :=
  (roundHalfEven (q * 10 ^ digits) : Rat) / 10 ^ digits

/-! ## Data model (`FoodItem` = one cleaned catalog row, nutrition_agent.py lines 42-78;
text fields are lower-cased and stripped at load time) -/

structure FoodItem where
  name : String
  diet : String
  meal_time : String
  category : String
  calories : Int
  protein : Rat
  carbs : Rat
  fats : Rat
deriving DecidableEq

/-- Output of `_format_item` (nutrition_agent.py lines 193-201): the display row of a
selected item; `name` is title-cased, `calories` passes through `int()`. -/
structure FormattedItem where
  name : String
  role : String
  calories : Int
  protein : Rat
  carbs : Rat
  fats : Rat
deriving DecidableEq

/-- Output of `_sum_macros` (nutrition_agent.py lines 203-208). -/
structure Macros where
  protein : Rat
  carbs : Rat
  fats : Rat
deriving DecidableEq

/-- The dict `_build_smart_meal` returns.  The empty-candidates branch (line 130)
returns only `items` and `total_calories`; `macro_summary := none` models the
absence of that key there. -/
structure MealResult where
  items : List FormattedItem
  total_calories : Int
  macro_summary : Option Macros
deriving DecidableEq

/-- The literal key set of the dict `_build_smart_meal` returns
(nutrition_agent.py lines 130 and 162-166). -/
def mealResultKeys (m : MealResult) : List String :=
  match m.macro_summary with
  | none => ["items", "total_calories"]
  | some _ => ["items", "total_calories", "macro_summary"]

/-! ## NutritionAgent -/

/-- `self.pairing_rules` (nutrition_agent.py lines 31-39), verbatim. -/
def pairing_rules : List (String × List String) :=
  [("curry", ["rice", "flatbread", "dry_veg"]),
   ("dry_veg", ["flatbread", "rice", "curry"]),
   ("rice", ["curry", "dry_veg", "yogurt"]),
   ("soup", ["bread", "salad"]),
   ("pasta", ["salad", "soup", "bread"]),
   ("breakfast_item", ["beverage", "fruit"]),
   ("oats", ["fruit", "milk", "nuts"])]

/-- `self.pairing_rules.get(main_cat, [])` (nutrition_agent.py line 138). -/
def pairingLookup (cat : String) : List String :=
  (((pairing_rules.find? (fun p => p.1 == cat)).map Prod.snd)).getD []

/-- `_format_item` (nutrition_agent.py lines 193-201). -/
def format_item (r : FoodItem) (role : String) : FormattedItem :=
  ⟨pyTitle r.name, role, r.calories, r.protein, r.carbs, r.fats⟩

/-- `_sum_macros` (nutrition_agent.py lines 203-208). -/
def sum_macros (items : List FormattedItem) : Macros :=
  ⟨(items.map (fun i => i.protein)).sum,
   (items.map (fun i => i.carbs)).sum,
   (items.map (fun i => i.fats)).sum⟩

/-- Insertion step of the sort model. -/
def insertBy (le : FoodItem → FoodItem → Bool) (a : FoodItem) :
    List FoodItem → List FoodItem
  | [] => [a]
  | b :: bs => if le a b then a :: b :: bs else b :: insertBy le a bs

/-- `DataFrame.sort_values`, modelled as an insertion sort by the given order. -/
def sortBy (le : FoodItem → FoodItem → Bool) : List FoodItem → List FoodItem
  | [] => []
  | a :: as => insertBy le a (sortBy le as)

/-- `df.sort_values("calories", ascending=False)` (nutrition_agent.py line 127). -/
def sortByCaloriesDesc (df : List FoodItem) : List FoodItem :=
  sortBy (fun a b => decide ((b.calories : Int) ≤ a.calories)) df

/-- `df.sample(1)` modelled by an explicit random index, reduced modulo the length;
`none` exactly when the frame is empty. -/
def pick (l : List FoodItem) (k : Nat) : Option FoodItem := l[k % l.length]?

/-- `main_candidates` (nutrition_agent.py line 127): top half (`int(len(df)*0.5)`
rows) of the frame sorted by descending calories. -/
def mainCandidates (df : List FoodItem) : List FoodItem :=
  (sortByCaloriesDesc df).take (df.length / 2)

/-- Main-dish draw (nutrition_agent.py lines 127-132). -/
def choose_main (df : List FoodItem) (mp : Nat) : Option FoodItem :=
  pick (mainCandidates df) mp

/-- `side_candidates.sort_values("diff")` (nutrition_agent.py lines 155-157):
sort by absolute calorie distance from the remaining budget. -/
def sortByDiff (remaining : Rat) (l : List FoodItem) : List FoodItem :=
  sortBy (fun a b =>
    decide (|(a.calories : Rat) - remaining| ≤ |(b.calories : Rat) - remaining|)) l

/-- Side-dish draw (nutrition_agent.py lines 144-157): restrict to compatible
categories when the pairing table has an entry (otherwise use the whole frame),
exclude the main item's name, sort by calorie distance, keep the best 3, draw one. -/
def choose_side (df : List FoodItem) (main : FoodItem) (remaining : Rat) (sp : Nat) :
    Option FoodItem :=
  let compatible_cats := pairingLookup main.category
  let base := if compatible_cats.isEmpty then df
              else df.filter (fun r => compatible_cats.contains r.category)
  let side_candidates := base.filter (fun r => r.name != main.name)
  pick ((sortByDiff remaining side_candidates).take 3) sp

/-- `_build_smart_meal` (nutrition_agent.py lines 118-166).  `mp`/`sp` are the
random draws for the main and the side. -/
def build_smart_meal (df : List FoodItem) (target_calories : Rat) (mp sp : Nat) :
    MealResult :=
  match choose_main df mp with
  | none => { items := [], total_calories := 0, macro_summary := none }
  | some main =>
    let mainF := format_item main "Main"
    let remaining_cals := target_calories - (main.calories : Rat)
    match (if remaining_cals > 50 then choose_side df main remaining_cals sp else none) with
    | none =>
        { items := [mainF], total_calories := main.calories,
          macro_summary := some (sum_macros [mainF]) }
    | some side =>
        let sideF := format_item side "Side"
        { items := [mainF, sideF], total_calories := main.calories + side.calories,
          macro_summary := some (sum_macros [mainF, sideF]) }

/-- The diet filter (nutrition_agent.py line 89):
`self.df[self.df["diet"].str.contains(diet_pref)]` — substring containment of the
normalized preference in the row's diet column. -/
def diet_filter (catalog : List FoodItem) (diet_pref : String) : List FoodItem :=
  catalog.filter (fun r => strContains r.diet diet_pref)

/-- Per-slot frame (nutrition_agent.py lines 107-111): rows tagged for the slot,
falling back to the whole diet-filtered frame when none are. -/
def slot_subset (diet_df : List FoodItem) (slot : String) : List FoodItem :=
  let time_df := diet_df.filter (fun r => r.meal_time == slot)
  if time_df.isEmpty then diet_df else time_df

/-- The `splits` dict (nutrition_agent.py lines 95-99), in insertion order. -/
def meal_splits : List (String × Rat) :=
  [("Breakfast", 0.25), ("Lunch", 0.40), ("Dinner", 0.35)]

/-- `recommend_meal_plan` (nutrition_agent.py lines 81-116).  `picks` supplies the
two random draws for each slot name. -/
def recommend_meal_plan (catalog : List FoodItem) (diet_preference : String)
    (total_calories : Rat) (picks : String → Nat × Nat) :
    Except String (List (String × MealResult)) :=
  let diet_pref := pyStrip (pyLower diet_preference)
  let diet_df := diet_filter catalog diet_pref
  if diet_df.isEmpty then
    .error ("No foods found for diet: " ++ diet_preference)
  else
    .ok (meal_splits.map (fun s =>
      let target := total_calories * s.2
      let time_df := slot_subset diet_df (pyLower s.1)
      (s.1, build_smart_meal time_df target (picks s.1).1 (picks s.1).2)))

/-! ## HealthAgent (src/agents/health_agent.py) -/

inductive Gender where
  | male
  | female
deriving DecidableEq

inductive ActivityLevel where
  | sedentary
  | lightly_active
  | moderately_active
  | very_active
  | extra_active
deriving DecidableEq

inductive Goal where
  | weight_loss
  | maintenance
  | muscle_gain
deriving DecidableEq

/-- `_normalize_enum`'s string cleaning (health_agent.py line 50):
`str(value).lower().strip().replace(" ", "_")`. -/
def cleanEnumStr (v : String) : String := pyReplaceChar ' ' '_' (pyStrip (pyLower v))

/-- `_normalize_enum` for `Gender` (default `MALE`, health_agent.py lines 43-56, 69). -/
def normalize_gender (v : Option String) : Gender :=
  match v with
  | none => Gender.male
  | some s =>
    if cleanEnumStr s = "male" then Gender.male
    else if cleanEnumStr s = "female" then Gender.female
    else Gender.male

/-- `_normalize_enum` for `ActivityLevel` (default `MODERATELY_ACTIVE`, line 70). -/
def normalize_activity (v : Option String) : ActivityLevel :=
  match v with
  | none => ActivityLevel.moderately_active
  | some s =>
    if cleanEnumStr s = "sedentary" then ActivityLevel.sedentary
    else if cleanEnumStr s = "lightly_active" then ActivityLevel.lightly_active
    else if cleanEnumStr s = "moderately_active" then ActivityLevel.moderately_active
    else if cleanEnumStr s = "very_active" then ActivityLevel.very_active
    else if cleanEnumStr s = "extra_active" then ActivityLevel.extra_active
    else ActivityLevel.moderately_active

/-- `_normalize_enum` for `Goal` (alias `maintain`, default `MAINTENANCE`, lines 52, 71). -/
def normalize_goal (v : Option String) : Goal :=
  match v with
  | none => Goal.maintenance
  | some s =>
    if cleanEnumStr s = "maintain" then Goal.maintenance
    else if cleanEnumStr s = "weight_loss" then Goal.weight_loss
    else if cleanEnumStr s = "maintenance" then Goal.maintenance
    else if cleanEnumStr s = "muscle_gain" then Goal.muscle_gain
    else Goal.maintenance

/-- `calculate_bmi` (health_agent.py lines 107-120). -/
def calculate_bmi (weight height_cm : Rat) : Rat × String :=
  if weight ≤ 0 ∨ height_cm ≤ 0 then (0, "Normal")
  else
    let height_m := height_cm / 100
    let bmi := pyRound (weight / height_m ^ 2) 2
    let category :=
      if bmi < 18.5 then "Underweight"
      else if bmi < 25 then "Normal"
      else if bmi < 30 then "Overweight"
      else "Obese"
    (bmi, category)

/-- `calculate_bmr` (health_agent.py lines 122-126): Mifflin-St Jeor, truncated. -/
def calculate_bmr (weight height_cm : Rat) (age : Int) (gender : Gender) : Int :=
  let base : Rat := 10 * weight + 6.25 * height_cm - 5 * (age : Rat)
  pyInt (if gender = Gender.male then base + 5 else base - 161)

/-- `calculate_tdee` (health_agent.py lines 128-138). -/
def calculate_tdee (bmr : Int) (activity_level : ActivityLevel) : Int :=
  let multiplier : Rat :=
    match activity_level with
    | ActivityLevel.sedentary => 1.2
    | ActivityLevel.lightly_active => 1.375
    | ActivityLevel.moderately_active => 1.55
    | ActivityLevel.very_active => 1.725
    | ActivityLevel.extra_active => 1.9
  pyInt ((bmr : Rat) * multiplier)

/-- `calculate_adjusted_calories` (health_agent.py lines 140-174): ordered goal, age
and BMI adjustments, truncated to integer. -/
def calculate_adjusted_calories (tdee : Int) (goal : Goal) (age : Int)
    (bmi_category : String) : Int :=
  let calories : Rat := (tdee : Rat)
  let calories :=
    if goal = Goal.weight_loss then calories * 0.85
    else if goal = Goal.muscle_gain then calories * 1.15
    else calories
  let calories :=
    if age > 40 then calories * 0.95
    else if 18 ≤ age ∧ age ≤ 25 ∧ goal = Goal.muscle_gain then calories * 1.05
    else calories
  let calories :=
    if bmi_category = "Underweight" then max calories ((tdee : Rat) * 1.1)
    else if (bmi_category = "Overweight" ∨ bmi_category = "Obese") ∧ goal = Goal.weight_loss
      then calories * 0.95
    else calories
  pyInt calories

/-- Output of `calculate_macros` (health_agent.py lines 176-197). -/
structure MacroSplit where
  protein_g : Int
  carbs_g : Int
  fats_g : Int
deriving DecidableEq

/-- `calculate_macros` (health_agent.py lines 176-197). -/
def calculate_macros (calories : Int) (goal : Goal) : MacroSplit :=
  let ratios : Rat × Rat × Rat :=
    if goal = Goal.weight_loss then (0.30, 0.40, 0.30)
    else if goal = Goal.muscle_gain then (0.30, 0.50, 0.20)
    else (0.25, 0.50, 0.25)
  { protein_g := pyInt ((calories : Rat) * ratios.1 / 4)
    carbs_g := pyInt ((calories : Rat) * ratios.2.1 / 4)
    fats_g := pyInt ((calories : Rat) * ratios.2.2 / 9) }

/-- The `biometrics` sub-dict of `analyze_user`'s result (health_agent.py lines 89-94). -/
structure Biometrics where
  bmi : Rat
  bmi_category : String
  bmr : Int
  tdee : Int
deriving DecidableEq

/-- The `targets` sub-dict of `analyze_user`'s result (health_agent.py lines 95-100). -/
structure Targets where
  calories : Int
  protein : Int
  carbs : Int
  fats : Int
deriving DecidableEq

/-- The user-profile dict.  `none` models an absent key; numeric fields are typed
(`float()`/`int()` parsing of well-formed inputs), so the `except` branch of
`analyze_user`, reachable in Python only through unparsable field values, is
unreachable in this embedding. -/
structure UserProfile where
  weight : Option Rat := none
  height : Option Rat := none
  age : Option Int := none
  gender : Option String := none
  activity_level : Option String := none
  goal : Option String := none
  diet_preference : Option String := none
deriving DecidableEq

/-- `analyze_user`'s result (health_agent.py lines 88-101). -/
structure HealthAnalysis where
  biometrics : Biometrics
  targets : Targets
deriving DecidableEq

/-- `analyze_user` (health_agent.py lines 59-105): defaults weight/height 0, age 25. -/
def analyze_user (p : UserProfile) : HealthAnalysis :=
  let weight := p.weight.getD 0
  let height := p.height.getD 0
  let age := p.age.getD 25
  let gender := normalize_gender p.gender
  let activity := normalize_activity p.activity_level
  let goal := normalize_goal p.goal
  let bmi_data := calculate_bmi weight height
  let bmr := calculate_bmr weight height age gender
  let tdee := calculate_tdee bmr activity
  let target_calories := calculate_adjusted_calories tdee goal age bmi_data.2
  let macros := calculate_macros target_calories goal
  { biometrics := ⟨bmi_data.1, bmi_data.2, bmr, tdee⟩
    targets := ⟨target_calories, macros.protein_g, macros.carbs_g, macros.fats_g⟩ }

/-! ## LLMAgent (src/agents/llm_agent.py) and the orchestrator
(src/services/recommendation_engine.py) -/

/-- One day's entry in the weekly plan dict (recommendation_engine.py lines 86-92). -/
structure DayInfo where
  meals : List (String × MealResult)
  calories : Int
  macros : Macros
deriving DecidableEq

/-- Outcome of the external Gemini call inside `explain_plan`: client missing
(lines 64-66), any exception from the API call (lines 89-94), or a response
carrying `response.text` (empty text falls through to the fallback, lines 86-97). -/
inductive LLMOutcome where
  | noClient
  | apiError
  | response (text : String)
deriving DecidableEq

/-- The `fallback_text` built at the top of `explain_plan` (llm_agent.py lines 55-61),
from `user_profile.get("goal", "health").replace("_", " ").title()`. -/
def fallback_text (goal_raw : String) : String :=
  let goal := pyTitle (pyReplaceChar '_' ' ' goal_raw)
  "Your " ++ goal ++ " plan is perfectly balanced! " ++
  "This meal structure optimizes your energy levels while ensuring " ++
  "you meet your daily caloric and macronutrient targets effectively. " ++
  "Stay consistent for the best results!"

/-- `explain_plan` (llm_agent.py lines 48-97), as a function of its two declared
parameters and the outcome of the external call. -/
def explain_plan (weekly_plan : List (String × DayInfo)) (user_profile : UserProfile)
    (outcome : LLMOutcome) : String :=
  let fallback := fallback_text (user_profile.goal.getD "health")
  match outcome with
  | LLMOutcome.noClient => fallback
  | LLMOutcome.apiError => fallback
  | LLMOutcome.response t => if t ≠ "" then pyStrip t else fallback

/-- Number of parameters `explain_plan` declares besides `self`
(llm_agent.py line 48: `weekly_plan`, `user_profile`). -/
def explainPlanParamCount : Nat := 2

/-- Number of positional arguments `generate_plan` passes to `explain_plan`
(recommendation_engine.py lines 98-102: `weekly_plan`, `user_profile`, `targets`). -/
def explainPlanCallArgCount : Nat := 3

/-- Python call semantics for `llm_agent.explain_plan(...)`: a positional call whose
argument count differs from the declared parameter count raises `TypeError`
before the method body runs. -/
def explain_plan_invoke (argCount : Nat) (weekly_plan : List (String × DayInfo))
    (user_profile : UserProfile) (outcome : LLMOutcome) : Except String String :=
  if argCount = explainPlanParamCount then
    Except.ok (explain_plan weekly_plan user_profile outcome)
  else
    Except.error "TypeError"

/-- `_aggregate_daily_macros` (recommendation_engine.py lines 122-140); a meal
without a `macro_summary` key contributes zero. -/
def aggregate_daily_macros (daily_meals : List (String × MealResult)) : Macros :=
  let get := fun (m : String × MealResult) => (m.2.macro_summary).getD ⟨0, 0, 0⟩
  ⟨pyRound ((daily_meals.map (fun m => (get m).protein)).sum) 1,
   pyRound ((daily_meals.map (fun m => (get m).carbs)).sum) 1,
   pyRound ((daily_meals.map (fun m => (get m).fats)).sum) 1⟩

/-- One entry of the `weekly_plan` dict (recommendation_engine.py lines 86-92). -/
def day_info (daily_meals : List (String × MealResult)) : DayInfo :=
  ⟨daily_meals,
   (daily_meals.map (fun m => m.2.total_calories)).sum,
   aggregate_daily_macros daily_meals⟩

/-- `generate_plan`'s result: either the top-level error dict or the final plan dict
(recommendation_engine.py lines 107-120). -/
inductive PlanResult where
  | errorResult (msg : String)
  | fullPlan (user_profile : UserProfile) (biometrics : Biometrics) (targets : Targets)
      (weekly_plan : List (String × DayInfo)) (ai_insight : String)
deriving DecidableEq

/-- Does a `generate_plan` result carry a `weekly_plan` key? -/
def hasWeeklyPlan (r : PlanResult) : Prop :=
  ∃ p b t w a, r = PlanResult.fullPlan p b t w a

/-- The `for day in range(1, 8)` loop of `generate_plan` (recommendation_engine.py
lines 73-92): build each day's entry, short-circuiting on an error dict. -/
def build_days (catalog : List FoodItem) (diet_pref : String) (target_calories : Rat)
    (dayPicks : Nat → String → Nat × Nat) :
    List Nat → Except String (List (String × DayInfo))
  | [] => Except.ok []
  | d :: ds =>
    match recommend_meal_plan catalog diet_pref target_calories (dayPicks d) with
    | Except.error e => Except.error e
    | Except.ok daily_meals =>
      match build_days catalog diet_pref target_calories dayPicks ds with
      | Except.error e => Except.error e
      | Except.ok rest => Except.ok (("Day " ++ toString d, day_info daily_meals) :: rest)

/-- The day labels of the `for day in range(1, 8)` loop (recommendation_engine.py line 75). -/
def week_day_numbers : List Nat := [1, 2, 3, 4, 5, 6, 7]

/-- `generate_plan` (recommendation_engine.py lines 45-120).  `dayPicks` supplies the
random draws for each of the 7 days; `outcome` the external-call outcome.  The
`if not health_analysis` branch is unreachable here because the typed
`analyze_user` cannot raise; the final `except` handler turns the `TypeError`
from the three-argument `explain_plan` call into the generic error dict. -/
def generate_plan (user_profile : UserProfile) (catalog : List FoodItem)
    (dayPicks : Nat → String → Nat × Nat) (outcome : LLMOutcome) : PlanResult :=
  let health_analysis := analyze_user user_profile
  let targets := health_analysis.targets
  let target_calories := targets.calories
  let diet_pref := user_profile.diet_preference.getD "Veg"
  match build_days catalog diet_pref (target_calories : Rat) dayPicks week_day_numbers with
  | Except.error e => PlanResult.errorResult e
  | Except.ok weekly_plan =>
    match explain_plan_invoke explainPlanCallArgCount weekly_plan user_profile outcome with
    | Except.error _ =>
        PlanResult.errorResult "An unexpected error occurred while generating your plan."
    | Except.ok ai_explanation =>
        PlanResult.fullPlan user_profile health_analysis.biometrics targets
          weekly_plan ai_explanation

/-! ## Spec-side definitions, for comparison with the source

These follow the spec's words, not the source, and exist only to be compared
against the definitions above. -/

/-- The non-veg keyword set the spec's dietary-safety filter names (spec §4.3 step 1). -/
def spec_non_veg_keywords : List String :=
  ["chicken", "fish", "egg", "mutton", "beef", "pork", "lamb", "meat", "bacon",
   "prawn", "duck"]

/-- Split a character list on space runs (Python `str.split()` on the catalog's
single-space names). -/
def splitWsAux (cur : List Char) : List Char → List (List Char)
  | [] => [cur.reverse]
  | c :: cs => if c = ' ' then cur.reverse :: splitWsAux [] cs else splitWsAux (c :: cur) cs

/-- Spec §4.3 step 1 tokenization: split the name on whitespace and strip non-letters. -/
def spec_name_tokens (name : String) : List String :=
  (splitWsAux [] name.data).map (fun t => ⟨t.filter Char.isAlpha⟩)

/-- The spec's whole-word dietary-safety check for `veg`: the name passes only when
none of its tokens is a non-veg keyword.  The source implements no such check. -/
def spec_veg_safe (name : String) : Bool :=
  (spec_name_tokens name).all (fun t => !(spec_non_veg_keywords.contains t))

/-- The spec's veg row filter: keep only rows with a diet-safe name (spec §4.3 step 1). -/
def spec_veg_filter (catalog : List FoodItem) : List FoodItem :=
  catalog.filter (fun r => spec_veg_safe r.name)

/-- The pairing table as the claim states it (spec §4.3 step 3). -/
def spec_pairing_rules : List (String × List String) :=
  [("curry", ["rice", "flatbread", "dry_veg"]),
   ("rice", ["curry", "dry_veg", "snack"]),
   ("soup", ["flatbread", "salad", "breakfast_item"]),
   ("pasta", ["salad", "soup"]),
   ("breakfast_item", ["beverage", "fruit"]),
   ("oats", ["fruit", "beverage", "snack"]),
   ("flatbread", ["curry", "dry_veg"])]

/-- Lookup in the claimed pairing table (absent categories pair with nothing). -/
def spec_pairing_lookup (cat : String) : List String :=
  (((spec_pairing_rules.find? (fun p => p.1 == cat)).map Prod.snd)).getD []

/-- The Mifflin-St Jeor expression as the claim writes it:
`10*w + 6.25*h - 5*age + (5 if male else -161)`. -/
def mifflin_st_jeor (w h : Rat) (age : Int) (male : Bool) : Rat :=
  10 * w + 6.25 * h - 5 * (age : Rat) + (if male then 5 else -161)

/-! ## Concrete fixtures -/

/-- A non-veg catalog row whose name carries the whole word `egg`. -/
def egg_curry_row : FoodItem :=
  ⟨"egg curry", "non-veg", "lunch", "curry", 320, 14, 10, 22⟩

/-- A generic-category row with high calories. -/
def alpha_bowl : FoodItem :=
  ⟨"alpha bowl", "veg", "lunch", "generic", 500, 10, 60, 12⟩

/-- A generic-category row with low calories. -/
def beta_cup : FoodItem :=
  ⟨"beta cup", "veg", "lunch", "generic", 100, 4, 12, 3⟩

/-- A curry main for the pairing witness. -/
def dal_tadka : FoodItem :=
  ⟨"dal tadka", "veg", "dinner", "curry", 400, 18, 50, 9⟩

/-- A flatbread side for the pairing witness. -/
def plain_naan : FoodItem :=
  ⟨"plain naan", "veg", "dinner", "flatbread", 260, 8, 45, 5⟩

/-- A breakfast row for the slot-singleton fixtures. -/
def veg_poha : FoodItem :=
  ⟨"veg poha", "veg", "breakfast", "breakfast_item", 250, 6, 45, 8⟩

/-- A lunch row for the slot-singleton fixtures. -/
def veg_thali : FoodItem :=
  ⟨"veg thali", "veg", "lunch", "rice", 650, 20, 90, 18⟩

/-- A dinner row for the slot-singleton fixtures. -/
def veg_khichdi : FoodItem :=
  ⟨"veg khichdi", "veg", "dinner", "rice", 420, 14, 70, 8⟩

/-- The three-row singleton-per-slot catalog. -/
def singleton_catalog : List FoodItem := [veg_poha, veg_thali, veg_khichdi]

/-- A well-formed user profile for concrete end-to-end runs. -/
def demo_profile : UserProfile :=
  { weight := some 70, height := some 170, age := some 25, gender := some "male",
    activity_level := some "moderately_active", goal := some "maintenance",
    diet_preference := some "Veg" }

/-! ## Character-level lemmas about the ASCII case maps -/

theorem charToNat_ofNat {n : Nat} (h : n.isValidChar) : (Char.ofNat n).toNat = n := by
  simp [Char.ofNat, h, Char.ofNatAux, Char.toNat, UInt32.toNat, BitVec.toNat_ofNatLt]

theorem isValidChar_of_le {n : Nat} (h : n ≤ 200) : n.isValidChar :=
  Or.inl (by omega)

theorem toLower_toUpper (c : Char) : c.toUpper.toLower = c.toLower := by
  unfold Char.toUpper Char.toLower
  by_cases h : c.toNat ≥ 97 ∧ c.toNat ≤ 122
  · have hv : (c.toNat - 32).isValidChar := isValidChar_of_le (by omega)
    have ht : (Char.ofNat (c.toNat - 32)).toNat = c.toNat - 32 := charToNat_ofNat hv
    rw [if_pos h, ht, if_pos (by omega : (c.toNat - 32) ≥ 65 ∧ (c.toNat - 32) ≤ 90),
        if_neg (by omega : ¬ (c.toNat ≥ 65 ∧ c.toNat ≤ 90))]
    have h32 : c.toNat - 32 + 32 = c.toNat := by omega
    rw [h32, Char.ofNat_toNat]
  · rw [if_neg h]

theorem toLower_toLower (c : Char) : c.toLower.toLower = c.toLower := by
  unfold Char.toLower
  by_cases h : c.toNat ≥ 65 ∧ c.toNat ≤ 90
  · have hv : (c.toNat + 32).isValidChar := isValidChar_of_le (by omega)
    have ht : (Char.ofNat (c.toNat + 32)).toNat = c.toNat + 32 := charToNat_ofNat hv
    rw [if_pos h, ht, if_neg (by omega : ¬ ((c.toNat + 32) ≥ 65 ∧ (c.toNat + 32) ≤ 90))]
  · rw [if_neg h, if_neg h]

/-- Lower-casing erases exactly the changes `str.title()` makes. -/
theorem map_toLower_titleChars (p : Bool) (l : List Char) :
    (titleChars p l).map Char.toLower = l.map Char.toLower := by
  induction l generalizing p with
  | nil => rfl
  | cons c cs ih =>
    simp only [titleChars, List.map_cons, ih]
    by_cases h : (c.isAlpha && !p) = true
    · rw [if_pos h, toLower_toUpper]
    · rw [if_neg h, toLower_toLower]

theorem pyLower_pyTitle (s : String) : pyLower (pyTitle s) = pyLower s := by
  simp only [pyLower, pyTitle, map_toLower_titleChars]

/-- `str.title()` is injective on already-lower-cased strings (the catalog's name
column after load-time cleaning). -/
theorem pyTitle_inj {a b : String} (ha : pyLower a = a) (hb : pyLower b = b)
    (h : pyTitle a = pyTitle b) : a = b := by
  have := congrArg pyLower h
  rwa [pyLower_pyTitle, pyLower_pyTitle, ha, hb] at this

/-! ## Lemmas about the sampling and sorting models -/

theorem mem_insertBy {le : FoodItem → FoodItem → Bool} {a x : FoodItem}
    {l : List FoodItem} : x ∈ insertBy le a l ↔ x = a ∨ x ∈ l := by
  induction l with
  | nil => simp [insertBy]
  | cons b bs ih =>
    simp only [insertBy]
    by_cases h : le a b = true
    · rw [if_pos h]; simp [List.mem_cons]
    · rw [if_neg h]
      simp only [List.mem_cons, ih]
      tauto

theorem mem_sortBy {le : FoodItem → FoodItem → Bool} {x : FoodItem}
    {l : List FoodItem} : x ∈ sortBy le l ↔ x ∈ l := by
  induction l with
  | nil => simp [sortBy]
  | cons b bs ih => simp [sortBy, mem_insertBy, ih]

theorem pick_mem {l : List FoodItem} {k : Nat} {x : FoodItem}
    (h : pick l k = some x) : x ∈ l := by
  unfold pick at h
  exact List.getElem?_mem h

theorem pick_nil (k : Nat) : pick [] k = none := rfl

theorem pick_isSome {l : List FoodItem} (hne : l ≠ []) (k : Nat) :
    ∃ x, pick l k = some x ∧ x ∈ l := by
  have hlt : k % l.length < l.length :=
    Nat.mod_lt _ (List.length_pos.mpr hne)
  refine ⟨l.get ⟨k % l.length, hlt⟩, ?_, List.get_mem l _ hlt⟩
  unfold pick
  exact List.getElem?_eq_getElem hlt

theorem choose_main_mem {df : List FoodItem} {mp : Nat} {m : FoodItem}
    (h : choose_main df mp = some m) : m ∈ df := by
  have h1 := pick_mem h
  unfold mainCandidates at h1
  have h2 := List.mem_of_mem_take h1
  unfold sortByCaloriesDesc at h2
  exact mem_sortBy.mp h2

/-- When the frame has at most one row, `int(len(df)*0.5)` is `0`, the candidate
frame is empty and no main is drawn. -/
theorem choose_main_none_of_short {df : List FoodItem} (h : df.length ≤ 1)
    (mp : Nat) : choose_main df mp = none := by
  unfold choose_main mainCandidates
  have h2 : df.length / 2 = 0 := by omega
  rw [h2, List.take_zero, pick_nil]

/-- Everything `choose_side` can return: a row of the frame, with a name different
from the main's, and compatible with the pairing table when the table has an
entry for the main's category. -/
theorem choose_side_spec {df : List FoodItem} {main : FoodItem} {remaining : Rat}
    {sp : Nat} {s : FoodItem} (h : choose_side df main remaining sp = some s) :
    s ∈ df ∧ s.name ≠ main.name ∧
      (pairingLookup main.category ≠ [] → s.category ∈ pairingLookup main.category) := by
  unfold choose_side at h
  have h1 := pick_mem h
  have h2 := List.mem_of_mem_take h1
  unfold sortByDiff at h2
  have h3 := mem_sortBy.mp h2
  rw [List.mem_filter] at h3
  obtain ⟨hbase, hname⟩ := h3
  have hname2 : s.name ≠ main.name := by
    intro hcontra
    rw [bne_iff_ne] at hname
    exact hname hcontra
  by_cases hempty : (pairingLookup main.category).isEmpty = true
  · rw [if_pos hempty] at hbase
    refine ⟨hbase, hname2, ?_⟩
    intro hne
    exact absurd (List.isEmpty_iff.mp hempty) hne
  · rw [if_neg hempty] at hbase
    rw [List.mem_filter] at hbase
    obtain ⟨hdf, hcat⟩ := hbase
    refine ⟨hdf, hname2, fun _ => ?_⟩
    exact List.mem_of_elem_eq_true hcat

/-- The empty-candidates branch of `_build_smart_meal`. -/
theorem build_smart_meal_nil (target : Rat) (mp sp : Nat) :
    build_smart_meal [] target mp sp =
      { items := [], total_calories := 0, macro_summary := none } := by
  unfold build_smart_meal choose_main mainCandidates sortByCaloriesDesc sortBy
  rfl

/-- A one-row frame also yields the empty meal: `head(int(1*0.5)) = head(0)`. -/
theorem build_smart_meal_of_short {df : List FoodItem} (h : df.length ≤ 1)
    (target : Rat) (mp sp : Nat) :
    build_smart_meal df target mp sp =
      { items := [], total_calories := 0, macro_summary := none } := by
  unfold build_smart_meal
  rw [choose_main_none_of_short h]

/-! ## Monotonicity of Python `int()` truncation -/

theorem pyInt_mono {a b : Rat} (h : a ≤ b) : pyInt a ≤ pyInt b := by
  unfold pyInt
  by_cases ha : 0 ≤ a
  · rw [if_pos ha, if_pos (le_trans ha h)]
    exact Int.floor_le_floor h
  · rw [if_neg ha]
    by_cases hb : 0 ≤ b
    · rw [if_pos hb]
      have h1 : ⌈a⌉ ≤ (0 : Int) :=
        Int.ceil_le.mpr (by exact_mod_cast le_of_lt (lt_of_not_le ha))
      have h2 : (0 : Int) ≤ ⌊b⌋ := Int.floor_nonneg.mpr hb
      omega
    · rw [if_neg hb]
      exact Int.ceil_le_ceil h

/-! ## Claim theorems -/

/-- C1.  The source's dietary filter ignores item names entirely: it keeps any row
whose diet column contains the preference as a substring (nutrition_agent.py
line 89).  A row named `egg curry` with diet class `non-veg` therefore passes the
`veg` filter (`"non-veg"` contains `"veg"`), while the spec's whole-word keyword
filter would reject it; `veggie burger` is safe under the spec's filter, and the
spec's exact-equality selection also differs from the source's substring match. -/
theorem c1_theorem :
    diet_filter [egg_curry_row] "veg" = [egg_curry_row]
    ∧ spec_veg_safe egg_curry_row.name = false
    ∧ spec_veg_filter [egg_curry_row] = []
    ∧ spec_veg_safe "veggie burger" = true
    ∧ egg_curry_row.diet ≠ "veg" := by
  decide

/-- C4 counterexample.  With the source's Mifflin-St Jeor constants,
`bmr(70, 170, 25, male)` is `int(1637.5 + 5) = 1642`, not `1674`, and the female
value is `1476`, not `1508`. -/
theorem c4_counterexample :
    calculate_bmr 70 170 25 Gender.male ≠ 1674
    ∧ calculate_bmr 70 170 25 Gender.female ≠ 1508 := by
  constructor
  · unfold calculate_bmr
    show pyInt (if Gender.male = Gender.male
        then 10 * 70 + 6.25 * 170 - 5 * ((25 : Int) : Rat) + 5
        else 10 * 70 + 6.25 * 170 - 5 * ((25 : Int) : Rat) - 161) ≠ 1674
    rw [if_pos rfl]
    norm_num [pyInt]
  · unfold calculate_bmr
    show pyInt (if Gender.female = Gender.male
        then 10 * 70 + 6.25 * 170 - 5 * ((25 : Int) : Rat) + 5
        else 10 * 70 + 6.25 * 170 - 5 * ((25 : Int) : Rat) - 161) ≠ 1508
    rw [if_neg (by decide : ¬ (Gender.female = Gender.male))]
    norm_num [pyInt]

/-- C4 amended.  `calculate_bmr` implements exactly the truncated Mifflin-St Jeor
expression `10*w + 6.25*h - 5*age + (5 if male else -161)`, and the two sample
inputs evaluate to `1642` and `1476`. -/
theorem c4_theorem :
    (∀ w h a, calculate_bmr w h a Gender.male = pyInt (mifflin_st_jeor w h a true)
      ∧ calculate_bmr w h a Gender.female = pyInt (mifflin_st_jeor w h a false))
    ∧ calculate_bmr 70 170 25 Gender.male = 1642
    ∧ calculate_bmr 70 170 25 Gender.female = 1476 := by
  refine ⟨fun w h a => ⟨?_, ?_⟩, ?_, ?_⟩
  · unfold calculate_bmr mifflin_st_jeor
    show pyInt (if Gender.male = Gender.male
        then 10 * w + 6.25 * h - 5 * (a : Rat) + 5
        else 10 * w + 6.25 * h - 5 * (a : Rat) - 161) = _
    rw [if_pos rfl, if_pos rfl]
    all_goals exact congrArg pyInt (by ring)
  · unfold calculate_bmr mifflin_st_jeor
    show pyInt (if Gender.female = Gender.male
        then 10 * w + 6.25 * h - 5 * (a : Rat) + 5
        else 10 * w + 6.25 * h - 5 * (a : Rat) - 161) = _
    rw [if_neg (by decide : ¬ (Gender.female = Gender.male)),
        if_neg (by decide : ¬ (false = true))]
    all_goals exact congrArg pyInt (by ring)
  · unfold calculate_bmr
    show pyInt (if Gender.male = Gender.male
        then 10 * 70 + 6.25 * 170 - 5 * ((25 : Int) : Rat) + 5
        else 10 * 70 + 6.25 * 170 - 5 * ((25 : Int) : Rat) - 161) = 1642
    rw [if_pos rfl]
    norm_num [pyInt]
  · unfold calculate_bmr
    show pyInt (if Gender.female = Gender.male
        then 10 * 70 + 6.25 * 170 - 5 * ((25 : Int) : Rat) + 5
        else 10 * 70 + 6.25 * 170 - 5 * ((25 : Int) : Rat) - 161) = 1476
    rw [if_neg (by decide : ¬ (Gender.female = Gender.male))]
    norm_num [pyInt]

/-- C8.  Whenever the BMI category is `Underweight`, the third adjustment step
takes `max(calories, tdee * 1.1)`, so the truncated result is at least
`int(tdee * 1.1)` whatever the goal and age steps did before. -/
theorem c8_theorem (tdee : Int) (goal : Goal) (age : Int) (cat : String)
    (hcat : cat = "Underweight") :
    pyInt ((tdee : Rat) * 1.1) ≤ calculate_adjusted_calories tdee goal age cat := by
  subst hcat
  simp only [calculate_adjusted_calories, if_pos]
  exact pyInt_mono (le_max_right _ _)

/-- C8 witness: `tdee = 2000`, maintenance, age 30, `Underweight`. -/
theorem c8_witness :
    ("Underweight" : String) = "Underweight"
    ∧ pyInt ((2000 : Rat) * 1.1)
        ≤ calculate_adjusted_calories 2000 Goal.maintenance 30 "Underweight" :=
  ⟨rfl, c8_theorem 2000 Goal.maintenance 30 "Underweight" rfl⟩

/-- C6 counterexample.  On an empty candidate frame `_build_smart_meal` returns the
bare dict with keys `items` and `total_calories` only: there is no warning flag of
any kind in the result (and no `macro_summary` key either). -/
theorem c6_counterexample :
    build_smart_meal [] 500 0 0
      = { items := [], total_calories := 0, macro_summary := none }
    ∧ mealResultKeys (build_smart_meal [] 500 0 0) = ["items", "total_calories"]
    ∧ ¬ ("warning" ∈ mealResultKeys (build_smart_meal [] 500 0 0)) := by
  refine ⟨build_smart_meal_nil 500 0 0, ?_, ?_⟩ <;> rw [build_smart_meal_nil] <;> decide

/-- C6 amended.  On an empty candidate frame the composer returns the empty meal
(zero items, zero calories, no `macro_summary` key) with no warning flag of any
kind, this is not an error, and day-plan generation still returns all three meal
slots whenever the diet filter is non-empty. -/
theorem c6_theorem (target : Rat) (mp sp : Nat) (catalog : List FoodItem)
    (pref : String) (total : Rat) (picks : String → Nat × Nat)
    (h : diet_filter catalog (pyStrip (pyLower pref)) ≠ []) :
    build_smart_meal [] target mp sp
      = { items := [], total_calories := 0, macro_summary := none }
    ∧ ¬ ("warning" ∈ mealResultKeys (build_smart_meal [] target mp sp))
    ∧ ∃ plan, recommend_meal_plan catalog pref total picks = Except.ok plan
        ∧ plan.length = 3 := by
  refine ⟨build_smart_meal_nil target mp sp, ?_, ?_⟩
  · rw [build_smart_meal_nil]
    decide
  · unfold recommend_meal_plan
    rw [if_neg (by simpa [List.isEmpty_iff] using h)]
    exact ⟨_, rfl, by simp [meal_splits]⟩

/-- C6 witness: empty frame, and a three-row veg catalog whose plan still has all
three slots. -/
theorem c6_witness :
    diet_filter singleton_catalog (pyStrip (pyLower "veg")) ≠ []
    ∧ (build_smart_meal [] 450 1 2
        = { items := [], total_calories := 0, macro_summary := none }
      ∧ ¬ ("warning" ∈ mealResultKeys (build_smart_meal [] 450 1 2))
      ∧ ∃ plan, recommend_meal_plan singleton_catalog "veg" 450 (fun s => (1, 2))
          = Except.ok plan ∧ plan.length = 3) :=
  ⟨by decide, c6_theorem 450 1 2 singleton_catalog "veg" 450 (fun s => (1, 2)) (by decide)⟩

/-- C7.  On any non-empty diet-safe frame (with load-normalized, lower-cased names)
and any target, the composed meal has at most two items, never lists the same item
name twice, and its reported `total_calories` is exactly the sum of the selected
items' calorie fields — no rounding or clamping toward the target. -/
theorem c7_theorem (df : List FoodItem) (target : Rat) (mp sp : Nat)
    (hne : df ≠ [])
    (hnorm : ∀ r ∈ df, pyLower r.name = r.name) :
    (build_smart_meal df target mp sp).items.length ≤ 2
    ∧ (build_smart_meal df target mp sp).items.Pairwise (fun a b => a.name ≠ b.name)
    ∧ (build_smart_meal df target mp sp).total_calories
        = ((build_smart_meal df target mp sp).items.map (fun i => i.calories)).sum := by
  simp only [build_smart_meal]
  cases hmain : choose_main df mp with
  | none => simp
  | some main =>
    dsimp only
    have hmainmem : main ∈ df := choose_main_mem hmain
    cases hside : (if (50 : Rat) < target - (main.calories : Rat)
        then choose_side df main (target - (main.calories : Rat)) sp else none) with
    | none =>
      dsimp only
      exact ⟨by simp, by simp, by simp [format_item]⟩
    | some side =>
      have hcs : choose_side df main (target - (main.calories : Rat)) sp = some side := by
        by_cases hc : (50 : Rat) < target - (main.calories : Rat)
        · rwa [if_pos hc] at hside
        · rw [if_neg hc] at hside
          exact absurd hside (by simp)
      obtain ⟨hsdf, hsname, _⟩ := choose_side_spec hcs
      dsimp only
      refine ⟨by simp, ?_, by simp [format_item]⟩
      refine List.Pairwise.cons ?_ (List.pairwise_singleton _ _)
      intro b hb
      rw [List.mem_singleton] at hb
      subst hb
      simp only [format_item]
      intro heq
      exact hsname (pyTitle_inj (hnorm side hsdf) (hnorm main hmainmem) heq.symm)

/-- C7 witness: a two-row generic frame composing a two-item meal. -/
theorem c7_witness :
    (([alpha_bowl, beta_cup] : List FoodItem) ≠ []
      ∧ ∀ r ∈ ([alpha_bowl, beta_cup] : List FoodItem), pyLower r.name = r.name)
    ∧ ((build_smart_meal [alpha_bowl, beta_cup] 700 0 0).items.length ≤ 2
      ∧ (build_smart_meal [alpha_bowl, beta_cup] 700 0 0).items.Pairwise
          (fun a b => a.name ≠ b.name)
      ∧ (build_smart_meal [alpha_bowl, beta_cup] 700 0 0).total_calories
          = ((build_smart_meal [alpha_bowl, beta_cup] 700 0 0).items.map
              (fun i => i.calories)).sum) :=
  ⟨⟨by decide, by decide⟩, c7_theorem [alpha_bowl, beta_cup] 700 0 0 (by decide) (by decide)⟩

/-- C5 counterexample.  The source's pairing table differs from the claimed one on
`rice` (yogurt, not snack), `soup` (bread, not flatbread/breakfast_item), `pasta`
(extra bread), `oats` (milk/nuts, not beverage/snack) and has `dry_veg` but no
`flatbread` key; and a main whose category is absent from the table does get a
side — the composer then draws from the whole frame, so a `generic` main yields a
two-item meal rather than none. -/
theorem c5_counterexample :
    pairingLookup "soup" = ["bread", "salad"]
    ∧ spec_pairing_lookup "soup" = ["flatbread", "salad", "breakfast_item"]
    ∧ pairingLookup "rice" = ["curry", "dry_veg", "yogurt"]
    ∧ spec_pairing_lookup "rice" = ["curry", "dry_veg", "snack"]
    ∧ pairingLookup "oats" = ["fruit", "milk", "nuts"]
    ∧ spec_pairing_lookup "oats" = ["fruit", "beverage", "snack"]
    ∧ pairingLookup "pasta" = ["salad", "soup", "bread"]
    ∧ spec_pairing_lookup "pasta" = ["salad", "soup"]
    ∧ pairingLookup "flatbread" = []
    ∧ spec_pairing_lookup "flatbread" = ["curry", "dry_veg"]
    ∧ alpha_bowl.category = "generic"
    ∧ pairingLookup "generic" = []
    ∧ (build_smart_meal [alpha_bowl, beta_cup] 700 0 0).items.length = 2 := by
  refine ⟨by decide, by decide, by decide, by decide, by decide, by decide, by decide,
    by decide, by decide, by decide, by decide, by decide, ?_⟩
  norm_num [build_smart_meal, choose_main, mainCandidates, sortByCaloriesDesc, sortBy,
    insertBy, pick, choose_side, pairingLookup, pairing_rules, sortByDiff,
    alpha_bowl, beta_cup, format_item]

/-- C5 amended.  Any side the composer draws comes from the frame, has a name
different from the main's, and — whenever the source's `pairing_rules` table has
an entry for the main's category — belongs to one of that entry's categories;
when the table has no entry the side is drawn from the whole frame instead of
being omitted. -/
theorem c5_theorem (df : List FoodItem) (main : FoodItem) (remaining : Rat) (sp : Nat)
    (side : FoodItem) (h : choose_side df main remaining sp = some side) :
    side ∈ df ∧ side.name ≠ main.name ∧
      (pairingLookup main.category ≠ [] → side.category ∈ pairingLookup main.category) :=
  choose_side_spec h

/-- C5 witness: a curry main draws a flatbread side via the table. -/
theorem c5_witness :
    choose_side [dal_tadka, plain_naan] dal_tadka 300 0 = some plain_naan
    ∧ (plain_naan ∈ [dal_tadka, plain_naan] ∧ plain_naan.name ≠ dal_tadka.name ∧
        (pairingLookup dal_tadka.category ≠ [] →
          plain_naan.category ∈ pairingLookup dal_tadka.category)) :=
  ⟨by decide, c5_theorem [dal_tadka, plain_naan] dal_tadka 300 0 plain_naan (by decide)⟩

/-- C2 counterexample.  The fallback sentence the source actually builds is
`"Your {Goal} plan is perfectly balanced! …"`; it never mentions the calorie
target, so it cannot be an instance of the claimed template
`"Your {targetCalories} kcal plan is carefully designed …"`. -/
theorem c2_counterexample :
    explain_plan [] { goal := some "maintenance" } LLMOutcome.noClient
      = "Your Maintenance plan is perfectly balanced! This meal structure optimizes your energy levels while ensuring you meet your daily caloric and macronutrient targets effectively. Stay consistent for the best results!"
    ∧ strContains (explain_plan [] { goal := some "maintenance" } LLMOutcome.noClient)
        "kcal" = false := by
  constructor
  · decide
  · decide

/-- C2 amended.  Called with its two declared arguments, `explain_plan` is total and
returns the deterministic fallback `"Your {Goal} plan is perfectly balanced! …"`
whenever the client is missing, the API call fails, or the response text is empty. -/
theorem c2_theorem (wp : List (String × DayInfo)) (p : UserProfile) (o : LLMOutcome)
    (h : o = LLMOutcome.noClient ∨ o = LLMOutcome.apiError
      ∨ o = LLMOutcome.response "") :
    explain_plan wp p o = fallback_text (p.goal.getD "health") := by
  rcases h with h | h | h <;> subst h <;> simp [explain_plan]

/-- C2 witness: an API failure on the demo profile yields the fallback. -/
theorem c2_witness :
    (LLMOutcome.apiError = LLMOutcome.noClient
      ∨ LLMOutcome.apiError = LLMOutcome.apiError
      ∨ LLMOutcome.apiError = LLMOutcome.response "")
    ∧ explain_plan [] demo_profile LLMOutcome.apiError
        = fallback_text (demo_profile.goal.getD "health") :=
  ⟨Or.inr (Or.inl rfl), c2_theorem [] demo_profile LLMOutcome.apiError (Or.inr (Or.inl rfl))⟩

/-! ## Orchestrator lemmas -/

theorem explain_plan_invoke_error (w : List (String × DayInfo)) (p : UserProfile)
    (o : LLMOutcome) :
    explain_plan_invoke explainPlanCallArgCount w p o = Except.error "TypeError" := rfl

theorem recommend_ok (catalog : List FoodItem) (pref : String) (tc : Rat)
    (picks : String → Nat × Nat)
    (h : diet_filter catalog (pyStrip (pyLower pref)) ≠ []) :
    recommend_meal_plan catalog pref tc picks = Except.ok (meal_splits.map (fun s =>
      (s.1, build_smart_meal
        (slot_subset (diet_filter catalog (pyStrip (pyLower pref))) (pyLower s.1))
        (tc * s.2) (picks s.1).1 (picks s.1).2))) := by
  unfold recommend_meal_plan
  rw [if_neg (by simpa [List.isEmpty_iff] using h)]

theorem build_days_ok (catalog : List FoodItem) (pref : String) (tc : Rat)
    (dayPicks : Nat → String → Nat × Nat)
    (h : diet_filter catalog (pyStrip (pyLower pref)) ≠ []) (ds : List Nat) :
    ∃ w, build_days catalog pref tc dayPicks ds = Except.ok w := by
  induction ds with
  | nil => exact ⟨[], rfl⟩
  | cons d rest ih =>
    obtain ⟨w, hw⟩ := ih
    refine ⟨("Day " ++ toString d, day_info (meal_splits.map (fun s =>
      (s.1, build_smart_meal
        (slot_subset (diet_filter catalog (pyStrip (pyLower pref))) (pyLower s.1))
        (tc * s.2) ((dayPicks d) s.1).1 ((dayPicks d) s.1).2)))) :: w, ?_⟩
    unfold build_days
    rw [recommend_ok catalog pref tc (dayPicks d) h, hw]

theorem generate_plan_always_error (p : UserProfile) (c : List FoodItem)
    (dp : Nat → String → Nat × Nat) (o : LLMOutcome) :
    ∃ msg, generate_plan p c dp o = PlanResult.errorResult msg := by
  simp only [generate_plan]
  cases hdays : build_days c (p.diet_preference.getD "Veg")
      (((analyze_user p).targets.calories : Int) : Rat) dp week_day_numbers with
  | error e => exact ⟨e, rfl⟩
  | ok w =>
    refine ⟨"An unexpected error occurred while generating your plan.", ?_⟩
    dsimp only
    rw [explain_plan_invoke_error]

/-- C3.  Even when the health analysis succeeds and all seven days are composed
without a diet-filter error, `generate_plan` returns the generic error dict: the
orchestrator invokes `explain_plan` with three positional arguments while the
method declares two, the call raises `TypeError`, and the surrounding handler
converts it; consequently `generate_plan` never returns a result that carries a
`weekly_plan` key. -/
theorem c3_theorem (profile : UserProfile) (catalog : List FoodItem)
    (dayPicks : Nat → String → Nat × Nat) (outcome : LLMOutcome)
    (h : diet_filter catalog
        (pyStrip (pyLower (profile.diet_preference.getD "Veg"))) ≠ []) :
    generate_plan profile catalog dayPicks outcome
      = PlanResult.errorResult "An unexpected error occurred while generating your plan."
    ∧ ∀ (p : UserProfile) (c : List FoodItem) (dp : Nat → String → Nat × Nat)
        (o : LLMOutcome), ¬ hasWeeklyPlan (generate_plan p c dp o) := by
  constructor
  · simp only [generate_plan]
    obtain ⟨w, hw⟩ := build_days_ok catalog (profile.diet_preference.getD "Veg")
      (((analyze_user profile).targets.calories : Int) : Rat) dayPicks h week_day_numbers
    rw [hw]
    dsimp only
    rw [explain_plan_invoke_error]
  · intro p c dp o hwp
    obtain ⟨msg, hmsg⟩ := generate_plan_always_error p c dp o
    obtain ⟨pr, b, t, wq, a, ha⟩ := hwp
    rw [hmsg] at ha
    exact PlanResult.noConfusion ha

/-- C3 witness: the demo profile against the three-row veg catalog. -/
theorem c3_witness :
    diet_filter singleton_catalog
        (pyStrip (pyLower (demo_profile.diet_preference.getD "Veg"))) ≠ []
    ∧ (generate_plan demo_profile singleton_catalog (fun d s => (0, 0)) LLMOutcome.apiError
        = PlanResult.errorResult "An unexpected error occurred while generating your plan."
      ∧ ∀ (p : UserProfile) (c : List FoodItem) (dp : Nat → String → Nat × Nat)
          (o : LLMOutcome), ¬ hasWeeklyPlan (generate_plan p c dp o)) :=
  ⟨by decide, c3_theorem demo_profile singleton_catalog (fun d s => (0, 0))
    LLMOutcome.apiError (by decide)⟩

/-- C9.  `recommend_meal_plan` fails with the `No foods found for diet:` error
exactly when the initial diet filter is empty; otherwise it composes the three
slots Breakfast/Lunch/Dinner with the fixed budget ratios 0.25/0.40/0.35 of the
total, each from the slot-tagged subset with fallback to the whole diet-filtered
catalog. -/
theorem c9_theorem (catalog : List FoodItem) (diet_preference : String) (total : Rat)
    (picks : String → Nat × Nat) :
    (recommend_meal_plan catalog diet_preference total picks
        = Except.error ("No foods found for diet: " ++ diet_preference)
      ↔ diet_filter catalog (pyStrip (pyLower diet_preference)) = [])
    ∧ (diet_filter catalog (pyStrip (pyLower diet_preference)) ≠ [] →
        recommend_meal_plan catalog diet_preference total picks = Except.ok
          [("Breakfast", build_smart_meal
              (slot_subset (diet_filter catalog (pyStrip (pyLower diet_preference)))
                "breakfast")
              (total * 0.25) (picks "Breakfast").1 (picks "Breakfast").2),
           ("Lunch", build_smart_meal
              (slot_subset (diet_filter catalog (pyStrip (pyLower diet_preference)))
                "lunch")
              (total * 0.40) (picks "Lunch").1 (picks "Lunch").2),
           ("Dinner", build_smart_meal
              (slot_subset (diet_filter catalog (pyStrip (pyLower diet_preference)))
                "dinner")
              (total * 0.35) (picks "Dinner").1 (picks "Dinner").2)]) := by
  by_cases hd : diet_filter catalog (pyStrip (pyLower diet_preference)) = []
  · refine ⟨⟨fun _ => hd, fun _ => ?_⟩, fun hne => absurd hd hne⟩
    unfold recommend_meal_plan
    rw [if_pos (by simp [List.isEmpty_iff, hd])]
  · refine ⟨⟨fun heq => ?_, fun hempty => absurd hempty hd⟩, fun _ => ?_⟩
    · rw [recommend_ok catalog diet_preference total picks hd] at heq
      exact Except.noConfusion heq
    · rw [recommend_ok catalog diet_preference total picks hd]
      rfl

/-- C9 witness: the three-row veg catalog with the `veg` preference. -/
theorem c9_witness :
    diet_filter singleton_catalog (pyStrip (pyLower "veg")) ≠ []
    ∧ recommend_meal_plan singleton_catalog "veg" 1000 (fun s => (0, 0)) = Except.ok
        [("Breakfast", build_smart_meal
            (slot_subset (diet_filter singleton_catalog (pyStrip (pyLower "veg")))
              "breakfast") (1000 * 0.25) 0 0),
         ("Lunch", build_smart_meal
            (slot_subset (diet_filter singleton_catalog (pyStrip (pyLower "veg")))
              "lunch") (1000 * 0.40) 0 0),
         ("Dinner", build_smart_meal
            (slot_subset (diet_filter singleton_catalog (pyStrip (pyLower "veg")))
              "dinner") (1000 * 0.35) 0 0)] :=
  ⟨by decide, (c9_theorem singleton_catalog "veg" 1000 (fun s => (0, 0))).2 (by decide)⟩

/-- C10.  On a catalog with exactly one diet-safe item per meal slot,
`recommend_meal_plan` is independent of the random draws: two calls with
identical inputs return identical day plans (here because `head(int(1*0.5))`
leaves an empty candidate frame, every slot deterministically composes the empty
meal). -/
theorem c10_theorem (catalog : List FoodItem) (pref : String) (total : Rat)
    (p1 p2 : String → Nat × Nat)
    (h : ∀ slot ∈ (["breakfast", "lunch", "dinner"] : List String),
        ((diet_filter catalog (pyStrip (pyLower pref))).filter
          (fun r => r.meal_time == slot)).length = 1) :
    recommend_meal_plan catalog pref total p1
      = recommend_meal_plan catalog pref total p2 := by
  have hne : diet_filter catalog (pyStrip (pyLower pref)) ≠ [] := by
    intro hnil
    have h1 := h "breakfast" (by simp)
    rw [hnil] at h1
    simp at h1
  have key : ∀ slot ∈ (["breakfast", "lunch", "dinner"] : List String),
      ∀ (t : Rat) (mp sp : Nat),
        build_smart_meal (slot_subset (diet_filter catalog (pyStrip (pyLower pref))) slot)
            t mp sp
          = { items := [], total_calories := 0, macro_summary := none } := by
    intro slot hs t mp sp
    have hlen := h slot hs
    have hss : slot_subset (diet_filter catalog (pyStrip (pyLower pref))) slot
        = (diet_filter catalog (pyStrip (pyLower pref))).filter
            (fun r => r.meal_time == slot) := by
      unfold slot_subset
      rw [if_neg]
      intro hc
      rw [List.isEmpty_iff] at hc
      rw [hc] at hlen
      simp at hlen
    rw [hss]
    exact build_smart_meal_of_short (le_of_eq hlen) t mp sp
  rw [recommend_ok catalog pref total p1 hne, recommend_ok catalog pref total p2 hne]
  congr 1
  simp only [meal_splits, List.map]
  rw [show pyLower "Breakfast" = "breakfast" from rfl,
      show pyLower "Lunch" = "lunch" from rfl,
      show pyLower "Dinner" = "dinner" from rfl]
  simp only [key "breakfast" (by simp), key "lunch" (by simp), key "dinner" (by simp)]

/-- C10 witness: the three-row singleton-per-slot catalog under two different
random-draw streams. -/
theorem c10_witness :
    (∀ slot ∈ (["breakfast", "lunch", "dinner"] : List String),
      ((diet_filter singleton_catalog (pyStrip (pyLower "veg"))).filter
        (fun r => r.meal_time == slot)).length = 1)
    ∧ recommend_meal_plan singleton_catalog "veg" 2000 (fun s => (0, 0))
        = recommend_meal_plan singleton_catalog "veg" 2000 (fun s => (5, 7)) :=
  ⟨by decide, c10_theorem singleton_catalog "veg" 2000 (fun s => (0, 0)) (fun s => (5, 7))
    (by decide)⟩
